import Mathlib

/-!
Shallow embedding of the codecollab-ai message bus, agent runtime and
in-memory store (src/codecollab/core/communication_hub.py,
src/codecollab/agents/base_agent.py, src/codecollab/agents/memory.py),
with theorems settling the specification claims about them.

Modelling conventions:
- Python machine floats used as opaque timestamps are modelled as `Int`
  (the code only stores and compares them; no float arithmetic is needed
  by any claim).
- Nondeterministic fresh values (uuid4, time.time) are passed in as
  explicit parameters.
- Python callables (handlers, observers) are modelled by opaque handler
  identifiers (`Nat`); the outcome of invoking a handler is supplied by
  an oracle parameter.
- Fallible operations return `Option`; a raised exception at the modelled
  fault point is an explicit boolean parameter where the code catches it.
-/

/-- Association-list lookup keyed by decidable equality; models Python
dict lookup (`d.get(k)` / `d[k]`) for the dictionaries in the source. -/
def alookup {α β : Type} [DecidableEq α] (k : α) : List (α × β) → Option β
  | [] => none
  | (a, b) :: t => if a = k then some b else alookup k t

/-- Replace the value stored under a key; models `d[k] = v` on a key that
is already present (all other entries unchanged). -/
def aupdate {α β : Type} [DecidableEq α] (k : α) (v : β) : List (α × β) → List (α × β)
  | [] => []
  | (a, b) :: t => if a = k then (a, v) :: aupdate k v t else (a, b) :: aupdate k v t

/-- Remove every entry stored under a key; models `del d[k]` on a Python
dict (which holds each key at most once). -/
def aremove {α β : Type} [DecidableEq α] (k : α) : List (α × β) → List (α × β)
  | [] => []
  | (a, b) :: t => if a = k then aremove k t else (a, b) :: aremove k t

/-- Remove the first occurrence of an element; models `list.remove(x)`. -/
def eraseFirst {α : Type} [DecidableEq α] (x : α) : List α → List α
  | [] => []
  | a :: t => if a = x then t else a :: eraseFirst x t

/-- Python list slice `xs[s:]`: for a negative start the index is taken
from the end and clamped below at 0, for a non-negative start it is
clamped above at the length (List.drop already clamps above). -/
def pySliceFrom {α : Type} (xs : List α) (s : Int) : List α :=
  if s < 0 then xs.drop ((xs.length + s).toNat) else xs.drop s.toNat

/-! ## Enumerations (communication_hub.py) -/

/-- AgentRole enum: the closed role set with its string values. -/
inductive AgentRole : Type
  | product_manager
  | developer
  | reviewer
  | tester
  | orchestrator
  deriving DecidableEq, Repr

/-- The `.value` string of each role, exactly as in the Python enum. -/
def AgentRole.value : AgentRole → String
  | .product_manager => "pm"
  | .developer => "dev"
  | .reviewer => "reviewer"
  | .tester => "tester"
  | .orchestrator => "orchestrator"

/-- The enum constructor `AgentRole(s)`: the member with value `s`, or
failure (`ValueError`) when no member matches. -/
def AgentRole.ofValue (s : String) : Option AgentRole :=
  if s = "pm" then some .product_manager
  else if s = "dev" then some .developer
  else if s = "reviewer" then some .reviewer
  else if s = "tester" then some .tester
  else if s = "orchestrator" then some .orchestrator
  else none

/-- MessageType enum: the seven message kinds. -/
inductive MessageType : Type
  | task_request
  | task_response
  | collaboration_request
  | status_update
  | error_report
  | negotiation
  | consensus
  deriving DecidableEq, Repr

/-- The `.value` string of each message kind. -/
def MessageType.value : MessageType → String
  | .task_request => "task_request"
  | .task_response => "task_response"
  | .collaboration_request => "collaboration_request"
  | .status_update => "status_update"
  | .error_report => "error_report"
  | .negotiation => "negotiation"
  | .consensus => "consensus"

/-- The enum constructor `MessageType(s)`. -/
def MessageType.ofValue (s : String) : Option MessageType :=
  if s = "task_request" then some .task_request
  else if s = "task_response" then some .task_response
  else if s = "collaboration_request" then some .collaboration_request
  else if s = "status_update" then some .status_update
  else if s = "error_report" then some .error_report
  else if s = "negotiation" then some .negotiation
  else if s = "consensus" then some .consensus
  else none

/-- MessagePriority enum: LOW=1, MEDIUM=2, HIGH=3, URGENT=4. -/
inductive MessagePriority : Type
  | low
  | medium
  | high
  | urgent
  deriving DecidableEq, Repr

/-- The numeric `.value` of each priority. -/
def MessagePriority.value : MessagePriority → Nat
  | .low => 1
  | .medium => 2
  | .high => 3
  | .urgent => 4

/-- The enum constructor `MessagePriority(n)`. -/
def MessagePriority.ofValue (n : Nat) : Option MessagePriority :=
  if n = 1 then some .low
  else if n = 2 then some .medium
  else if n = 3 then some .high
  else if n = 4 then some .urgent
  else none

/-! ## Metadata values

Message metadata is an open string-keyed mapping `Dict[str, Any]`; the
values the source actually stores there are strings (message ids, agent
ids), numbers (timestamps), booleans (broadcast flag) and lists of role
value strings (negotiation participants). -/

/-- A metadata value as used by the source. -/
inductive MetaVal : Type
  | str (s : String)
  | num (n : Int)
  | boolean (b : Bool)
  | strList (l : List String)
  deriving DecidableEq, Repr

/-- A string-keyed metadata mapping. -/
abbrev Metadata := List (String × MetaVal)

/-! ## Message (communication_hub.py, lines 50-104) -/

/-- The Message dataclass after `__post_init__` has run: id, timestamp
and conversation_id are then always present. -/
structure Message : Type where
  sender : AgentRole
  recipient : AgentRole
  message_type : MessageType
  content : String
  id : String
  priority : MessagePriority
  timestamp : Int
  metadata : Metadata
  requires_response : Bool
  conversation_id : String
  deriving DecidableEq, Repr

/-- Constructing a Message: the dataclass constructor followed by
`__post_init__`.  `none` for id, timestamp or conversation_id models the
Python value None, replaced by a fresh uuid / current time; an explicitly
empty id string is `some ""` and is preserved. -/
def mkMessage (sender recipient : AgentRole) (mt : MessageType) (content : String)
    (idOpt : Option String) (priority : MessagePriority) (tsOpt : Option Int)
    (metadata : Metadata) (requires_response : Bool) (convOpt : Option String)
    (freshId freshConv : String) (now : Int) : Message :=
  { sender := sender
    recipient := recipient
    message_type := mt
    content := content
    id := idOpt.getD freshId
    priority := priority
    timestamp := tsOpt.getD now
    metadata := metadata
    requires_response := requires_response
    conversation_id := convOpt.getD freshConv }

/-- Calling the dataclass constructor with some arguments omitted: each
optional parameter is `none` when the call site omits it, in which case
the dataclass default applies (priority MEDIUM, metadata empty dict from
`default_factory=dict`, requires_response False) before `__post_init__`
runs.  Mirrors the field declarations at lines 57-62 of the source. -/
def mkMessageOpt (sender recipient : AgentRole) (mt : MessageType) (content : String)
    (idOpt : Option String) (prioOpt : Option MessagePriority) (tsOpt : Option Int)
    (metaOpt : Option Metadata) (reqOpt : Option Bool) (convOpt : Option String)
    (freshId freshConv : String) (now : Int) : Message :=
  mkMessage sender recipient mt content idOpt (prioOpt.getD .medium) tsOpt
    (metaOpt.getD []) (reqOpt.getD false) convOpt freshId freshConv now

/-- The dictionary produced by `Message.to_dict` / consumed by
`Message.from_dict`.  Fields that the Python dict may carry as None are
`Option`; for `metadata`, `none` covers both an absent key and an
explicit null (both make `data.get("metadata")` return None, and any
non-dict value is discarded by the isinstance check). -/
structure MessageDict : Type where
  id : Option String
  sender : String
  recipient : String
  message_type : String
  content : String
  priority : Nat
  timestamp : Option Int
  metadata : Option Metadata
  requires_response : Option Bool
  conversation_id : Option String
  deriving DecidableEq, Repr

/-- `Message.to_dict`: every field serialized, enum-valued fields through
their `.value`. -/
def Message.to_dict (m : Message) : MessageDict :=
  { id := some m.id
    sender := m.sender.value
    recipient := m.recipient.value
    message_type := m.message_type.value
    content := m.content
    priority := m.priority.value
    timestamp := some m.timestamp
    metadata := some m.metadata
    requires_response := some m.requires_response
    conversation_id := some m.conversation_id }

/-- The metadata normalization in `Message.from_dict`: keep the value
when it is a dict, otherwise (absent or null) the empty dict. -/
def normalizeMeta : Option Metadata → Metadata
  | some d => d
  | none => []

/-- `Message.from_dict`: rebuild a message from a dictionary; an invalid
enum value raises ValueError, modelled as `none`.  `requires_response`
uses `data.get("requires_response", False)` and `conversation_id` uses
`data.get("conversation_id")`; `__post_init__` then fills missing id,
timestamp and conversation id from fresh values. -/
def Message.from_dict (d : MessageDict) (freshId freshConv : String) (now : Int) :
    Option Message :=
  match AgentRole.ofValue d.sender, AgentRole.ofValue d.recipient,
      MessageType.ofValue d.message_type, MessagePriority.ofValue d.priority with
  | some s, some r, some mt, some p =>
      some (mkMessage s r mt d.content d.id p d.timestamp (normalizeMeta d.metadata)
        (d.requires_response.getD false) d.conversation_id freshId freshConv now)
  | _, _, _, _ => none

/-! ## ConversationThread (communication_hub.py, lines 106-122) -/

/-- The ConversationThread dataclass. -/
structure ConversationThread : Type where
  id : String
  participants : List AgentRole
  messages : List Message
  created_at : Int
  status : String
  deriving DecidableEq, Repr

/-- `add_message`: overwrite the message's conversation id with the
thread's id, then append it to the thread. -/
def ConversationThread.add_message (c : ConversationThread) (m : Message) :
    ConversationThread :=
  { c with messages := c.messages ++ [{ m with conversation_id := c.id }] }

/-- `get_context(limit)`: the Python slice `self.messages[-limit:]`
(default limit in the source is 10). -/
def ConversationThread.get_context (c : ConversationThread) (limit : Int) : List Message :=
  pySliceFrom c.messages (-limit)

/-! ## CommunicationHub (communication_hub.py, lines 125-417)

The delivery queue is `asyncio.Queue()` — a plain FIFO queue: `put`
appends `(priority, message)` tuples at the back and `get` removes from
the front, ignoring the priority component.  Handlers and broadcast
observers are opaque callables, modelled by `Nat` identifiers; the
success or failure of invoking a recipient handler is supplied by an
oracle `handlerOk`. -/

/-- The hub's delivery statistics dictionary. -/
structure DeliveryStats : Type where
  total_sent : Nat
  total_delivered : Nat
  total_failed : Nat
  deriving DecidableEq, Repr

/-- A negotiation session record as stored in `active_negotiations`. -/
structure NegotiationSession : Type where
  id : String
  participants : List AgentRole
  topic : String
  data : Metadata
  proposals : List String
  status : String
  created_at : Int
  deriving DecidableEq, Repr

/-- The CommunicationHub state (the fields of `__init__`). -/
structure CommunicationHub : Type where
  message_queue : List (Nat × Message)
  subscribers : List (AgentRole × Nat)
  broadcast_subscribers : List Nat
  conversations : List (String × ConversationThread)
  active_negotiations : List (String × NegotiationSession)
  message_history : List Message
  delivery_stats : DeliveryStats
  is_running : Bool
  deriving DecidableEq, Repr

/-- A freshly constructed hub (`__init__`). -/
def CommunicationHub.new : CommunicationHub :=
  { message_queue := []
    subscribers := []
    broadcast_subscribers := []
    conversations := []
    active_negotiations := []
    message_history := []
    delivery_stats := { total_sent := 0, total_delivered := 0, total_failed := 0 }
    is_running := false }

/-- Python dict assignment `d[k] = v`: replace in place when the key
exists, otherwise append (insertion order preserved). -/
def dictSet {α β : Type} [DecidableEq α] (k : α) (v : β) (l : List (α × β)) :
    List (α × β) :=
  if (alookup k l).isSome then aupdate k v l else l ++ [(k, v)]

/-- `subscribe(role, callback)`: register the single handler for a role,
silently replacing any prior registration. -/
def CommunicationHub.subscribe (h : CommunicationHub) (role : AgentRole) (cb : Nat) :
    CommunicationHub :=
  { h with subscribers := dictSet role cb h.subscribers }

/-- `subscribe_to_all(callback)`: append a broadcast observer. -/
def CommunicationHub.subscribe_to_all (h : CommunicationHub) (cb : Nat) :
    CommunicationHub :=
  { h with broadcast_subscribers := h.broadcast_subscribers ++ [cb] }

/-- `start()`: mark the hub running (idempotent); the dispatch task
itself is modelled by `drain` below. -/
def CommunicationHub.start (h : CommunicationHub) : CommunicationHub :=
  { h with is_running := true }

/-- `stop()`: cancel the dispatch task and mark the hub stopped. -/
def CommunicationHub.stop (h : CommunicationHub) : CommunicationHub :=
  { h with is_running := false }

/-- The first half of `_track_conversation`: create the thread (empty,
participants sender and recipient, `created_at` the message timestamp)
when the conversation id has not been seen before. -/
def CommunicationHub.ensureThread (h : CommunicationHub) (cid : String) (m : Message) :
    CommunicationHub :=
  match alookup cid h.conversations with
  | some _ => h
  | none =>
      { h with conversations := h.conversations ++
          [(cid, { id := cid, participants := [m.sender, m.recipient], messages := [],
                   created_at := m.timestamp, status := "active" })] }

/-- The final `add_message` step of `_track_conversation`: add the message
to the (now necessarily existing) thread stored under the key. -/
def CommunicationHub.addToThread (h : CommunicationHub) (cid : String) (m : Message) :
    CommunicationHub :=
  match alookup cid h.conversations with
  | some c => { h with conversations := aupdate cid (c.add_message m) h.conversations }
  | none => h

/-- `_track_conversation`: create the thread on first sight of a
conversation id, then add the message to it.  Python computes the key as
`message.conversation_id or str(uuid.uuid4())`, so an empty (falsy)
conversation id is replaced by a fresh one. -/
def CommunicationHub.track_conversation (h : CommunicationHub) (m : Message)
    (freshConv : String) : CommunicationHub :=
  (h.ensureThread (if m.conversation_id = "" then freshConv else m.conversation_id) m).addToThread
    (if m.conversation_id = "" then freshConv else m.conversation_id) m

/-- `send_message`: on the modelled internal fault (the queue `put`
raising) the failed counter is incremented and False returned; otherwise
the `(priority, message)` pair is appended to the FIFO queue, the message
is appended to history, the sent counter incremented, the conversation
tracked, and True returned. -/
def CommunicationHub.send_message (h : CommunicationHub) (m : Message)
    (queuePutFails : Bool) (freshConv : String) : CommunicationHub × Bool :=
  if queuePutFails then
    ({ h with delivery_stats :=
        { h.delivery_stats with total_failed := h.delivery_stats.total_failed + 1 } },
      false)
  else
    let h1 := { h with
      message_queue := h.message_queue ++ [(m.priority.value, m)]
      message_history := h.message_history ++ [m]
      delivery_stats :=
        { h.delivery_stats with total_sent := h.delivery_stats.total_sent + 1 } }
    (h1.track_conversation m freshConv, true)

/-- An observable action of one dispatch-loop iteration. -/
inductive DeliveryEvent : Type
  | delivered (handler : Nat) (m : Message)
  | deliveryFailed (handler : Nat) (m : Message)
  | observed (handler : Nat) (m : Message)
  deriving DecidableEq, Repr

/-- The body of one `_process_messages` iteration after `get` returned an
item: invoke the recipient's handler if one is registered (recording
delivered/failed), then pass the message to every broadcast observer in
registration order (observer failures are isolated and change nothing). -/
def CommunicationHub.processItem (h : CommunicationHub)
    (handlerOk : Nat → Message → Bool) (item : Nat × Message) :
    CommunicationHub × List DeliveryEvent :=
  let m := item.2
  let (h1, evs1) :=
    match alookup m.recipient h.subscribers with
    | some cb =>
        if handlerOk cb m then
          ({ h with delivery_stats := { h.delivery_stats with
               total_delivered := h.delivery_stats.total_delivered + 1 } },
            [DeliveryEvent.delivered cb m])
        else
          ({ h with delivery_stats := { h.delivery_stats with
               total_failed := h.delivery_stats.total_failed + 1 } },
            [DeliveryEvent.deliveryFailed cb m])
    | none => (h, [])
  (h1, evs1 ++ h1.broadcast_subscribers.map (fun cb => DeliveryEvent.observed cb m))

/-- Run the dispatch loop over a list of already-dequeued items in order. -/
def CommunicationHub.drainList (handlerOk : Nat → Message → Bool) :
    CommunicationHub → List (Nat × Message) → CommunicationHub × List DeliveryEvent
  | h, [] => (h, [])
  | h, item :: rest =>
      let (h1, evs1) := h.processItem handlerOk item
      let (h2, evs2) := CommunicationHub.drainList handlerOk h1 rest
      (h2, evs1 ++ evs2)

/-- Run the dispatch loop until the current queue is empty: items are
taken strictly from the front of the FIFO queue, in the order `put`
appended them. -/
def CommunicationHub.drain (h : CommunicationHub) (handlerOk : Nat → Message → Bool) :
    CommunicationHub × List DeliveryEvent :=
  CommunicationHub.drainList handlerOk { h with message_queue := [] } h.message_queue

/-- The dispatch order of a drained hub: the messages in the order their
point-to-point delivery was attempted (handler registered or not, each
dequeued message is processed once, in queue order). -/
def CommunicationHub.dispatchOrder (h : CommunicationHub) : List Message :=
  h.message_queue.map Prod.snd

/-- How a `send_request` call exits: the installed observer resolved the
future with a response, the wait timed out, or some other failure was
caught.  All three paths are modelled because the claim about
`send_request` quantifies over every exit path. -/
inductive RequestOutcome : Type
  | response (m : Message)
  | timedOut
  | errored
  deriving DecidableEq, Repr

/-- `send_request`: build a request message (fresh explicit id,
`requires_response=True`, remaining optional fields defaulted), install
the temporary broadcast observer via `subscribe_to_all`, send the
request, then wait; the response is returned on resolution and None on
timeout or any other caught failure.  No path removes the observer. -/
def CommunicationHub.send_request (h : CommunicationHub) (sender recipient : AgentRole)
    (content : String) (mt : MessageType) (observerId : Nat)
    (freshId freshConv trackFresh : String) (now : Int) (queuePutFails : Bool)
    (outcome : RequestOutcome) : CommunicationHub × Option Message :=
  let req := mkMessageOpt sender recipient mt content (some freshId) none none none
    (some true) none freshId freshConv now
  let h1 := h.subscribe_to_all observerId
  let (h2, _sent) := h1.send_message req queuePutFails trackFresh
  match outcome with
  | .response r => (h2, some r)
  | .timedOut => (h2, none)
  | .errored => (h2, none)

/-- The loop body of `broadcast_message`: one message per subscribed role
other than the sender, each with a fresh id and metadata
`broadcast: True`, sent through `send_message` (return value ignored). -/
def broadcastSendAll (sender : AgentRole) (content : String) (mt : MessageType)
    (freshIds freshConvs trackFresh : Nat → String) (faults : Nat → Bool) (now : Int) :
    List AgentRole → Nat → CommunicationHub → CommunicationHub
  | [], _, h => h
  | r :: rest, i, h =>
      if r = sender then
        broadcastSendAll sender content mt freshIds freshConvs trackFresh faults now rest
          (i + 1) h
      else
        let msg := mkMessageOpt sender r mt content (some (freshIds i)) none none
          (some [("broadcast", MetaVal.boolean true)]) none none (freshIds i)
          (freshConvs i) now
        let (h1, _) := h.send_message msg (faults i) (trackFresh i)
        broadcastSendAll sender content mt freshIds freshConvs trackFresh faults now rest
          (i + 1) h1

/-- `broadcast_message`: emit one message per currently subscribed role
other than the sender. -/
def CommunicationHub.broadcast_message (h : CommunicationHub) (sender : AgentRole)
    (content : String) (mt : MessageType) (freshIds freshConvs trackFresh : Nat → String)
    (faults : Nat → Bool) (now : Int) : CommunicationHub :=
  broadcastSendAll sender content mt freshIds freshConvs trackFresh faults now
    (h.subscribers.map Prod.fst) 0 h

/-- The notification loop of `start_negotiation`: one directed
negotiation-kind notice per participant, sent from the orchestrator. -/
def negotiationNotifyAll (negId topic : String) (participants : List AgentRole)
    (freshIds freshConvs trackFresh : Nat → String) (faults : Nat → Bool) (now : Int) :
    List AgentRole → Nat → CommunicationHub → CommunicationHub
  | [], _, h => h
  | p :: rest, i, h =>
      let msg := mkMessageOpt AgentRole.orchestrator p MessageType.negotiation
        ("Negotiation started: " ++ topic) (some (freshIds i)) none none
        (some [("negotiation_id", MetaVal.str negId), ("action", MetaVal.str "start"),
               ("participants", MetaVal.strList (participants.map AgentRole.value))])
        none none (freshIds i) (freshConvs i) now
      let (h1, _) := h.send_message msg (faults i) (trackFresh i)
      negotiationNotifyAll negId topic participants freshIds freshConvs trackFresh faults
        now rest (i + 1) h1

/-- `start_negotiation`: store a fresh negotiation session record, notify
every participant, return the fresh id. -/
def CommunicationHub.start_negotiation (h : CommunicationHub)
    (participants : List AgentRole) (topic : String) (initial_data : Option Metadata)
    (freshNegId : String) (freshIds freshConvs trackFresh : Nat → String)
    (faults : Nat → Bool) (now : Int) : CommunicationHub × String :=
  let data := initial_data.getD []
  let ses : NegotiationSession :=
    { id := freshNegId, participants := participants, topic := topic, data := data,
      proposals := [], status := "active", created_at := now }
  let h1 := { h with active_negotiations := h.active_negotiations ++ [(freshNegId, ses)] }
  (negotiationNotifyAll freshNegId topic participants freshIds freshConvs trackFresh
    faults now participants 0 h1, freshNegId)

/-! ## BaseAgent runtime (base_agent.py)

The agent's handler logic is subclass-supplied, so the outcome of running
the kind-specific or generic handler on a message is an explicit
parameter (`HandlerOutcome`).  Latency metrics that do float arithmetic
(`average_response_time`, `uptime`) are not needed by any claim and are
not modelled; backoff sleeps are recorded as the slept duration in units
of the 1.0-second base (`asyncio.sleep(1.0 * error_count)`). -/

/-- The AgentState enum. -/
inductive AgentState : Type
  | initializing
  | idle
  | processing
  | waiting_for_response
  | collaborating
  | error
  | shutdown
  deriving DecidableEq, Repr

/-- The fields of AgentConfig used by the modelled operations
(`max_memory_size` by history trimming, `retry_count` by error recovery,
`role` by subscription and responses). -/
structure AgentConfig : Type where
  name : String
  role : AgentRole
  max_memory_size : Nat
  retry_count : Nat
  deriving DecidableEq, Repr

/-- The integer-valued AgentMetrics counters and the last-activity time. -/
structure AgentMetrics : Type where
  messages_sent : Nat
  messages_received : Nat
  tasks_completed : Nat
  tasks_failed : Nat
  last_activity : Option Int
  deriving DecidableEq, Repr

/-- The mutable agent state touched by the dispatch and error paths. -/
structure BaseAgent : Type where
  config : AgentConfig
  agent_id : String
  state : AgentState
  conversation_history : List Message
  metrics : AgentMetrics
  last_error : Option String
  error_count : Nat
  deriving DecidableEq, Repr

/-- `_change_state`: update the state only when it differs, recording the
transition (the state-change callbacks only observe it; their failures
are isolated). -/
def BaseAgent.change_state (a : BaseAgent) (s : AgentState) :
    BaseAgent × List (AgentState × AgentState) :=
  if a.state = s then (a, []) else ({ a with state := s }, [(a.state, s)])

/-- `_handle_error`: record the error, bump the error counter, force the
state to error if not already there; while the counter is within the
retry budget, sleep `1.0 * error_count` seconds (returned as the backoff
duration) and return to idle, otherwise stay as is with no recovery. -/
def BaseAgent.handle_error (a : BaseAgent) (err : String) :
    BaseAgent × Option Nat × List (AgentState × AgentState) :=
  let a1 := { a with last_error := some err, error_count := a.error_count + 1 }
  let step1 :=
    if a1.state ≠ AgentState.error then a1.change_state AgentState.error else (a1, [])
  if step1.1.error_count ≤ step1.1.config.retry_count then
    let step2 := step1.1.change_state AgentState.idle
    (step2.1, some step1.1.error_count, step1.2 ++ step2.2)
  else
    (step1.1, none, step1.2)

/-- `_send_response`: build a correlated response whose metadata echoes
the original message id (`response_to`), the agent id and a processing
time, send it through the hub (the hub side is the bus model above), and
count it as sent. -/
def BaseAgent.send_response (a : BaseAgent) (original : Message)
    (response_content : String) (mt : MessageType) (freshId freshConv : String)
    (now : Int) : BaseAgent × Message :=
  let resp := mkMessageOpt a.config.role original.sender mt response_content
    (some freshId) none none
    (some [("response_to", MetaVal.str original.id),
           ("agent_id", MetaVal.str a.agent_id),
           ("processing_time", MetaVal.num now)])
    none none freshId freshConv now
  ({ a with metrics := { a.metrics with messages_sent := a.metrics.messages_sent + 1 } },
    resp)

/-- What the kind-specific or generic handler did with the message: the
optional response content it returned, or the exception it raised. -/
inductive HandlerOutcome : Type
  | success (response : Option String)
  | failure (err : String)
  deriving DecidableEq, Repr

/-- The observable result of one `_handle_message` dispatch. -/
structure DispatchResult : Type where
  agent : BaseAgent
  sent : List Message
  backoff : Option Nat
  events : List (AgentState × AgentState)
  deriving DecidableEq, Repr

/-- The opening of `_handle_message`: count the inbound message, stamp
the activity time, append the message to the conversation-history buffer
and trim it with the slice `[-max_memory_size:]` once over capacity. -/
def BaseAgent.receivePrologue (a : BaseAgent) (m : Message) (now : Int) : BaseAgent :=
  let a1 := { a with metrics := { a.metrics with
    messages_received := a.metrics.messages_received + 1
    last_activity := some now } }
  let a2 := { a1 with conversation_history := a1.conversation_history ++ [m] }
  if a2.conversation_history.length > a2.config.max_memory_size then
    { a2 with conversation_history :=
        pySliceFrom a2.conversation_history (-(a2.config.max_memory_size : Int)) }
  else a2

/-- The outcome-dependent middle of `_handle_message` (the inner
try/except): the handler's success or failure path, producing the agent,
the responses sent, the backoff slept in `_handle_error` (if any) and the
state transitions recorded inside this part. -/
def BaseAgent.dispatchBody (a4 : BaseAgent) (m : Message) (outcome : HandlerOutcome)
    (freshId freshConv : String) (now : Int) :
    BaseAgent × List Message × Option Nat × List (AgentState × AgentState) :=
  match outcome with
  | .success respOpt =>
      let sr :=
        if m.requires_response then
          match respOpt with
          | some r =>
              if r = "" then (a4, ([] : List Message))
              else
                let q := a4.send_response m r MessageType.task_response freshId
                  freshConv now
                (q.1, [q.2])
          | none => (a4, ([] : List Message))
        else (a4, ([] : List Message))
      ({ sr.1 with metrics := { sr.1.metrics with
          tasks_completed := sr.1.metrics.tasks_completed + 1 } },
        sr.2, none, [])
  | .failure err =>
      let a5 := { a4 with metrics := { a4.metrics with
        tasks_failed := a4.metrics.tasks_failed + 1 } }
      let he := a5.handle_error err
      let sr :=
        if m.requires_response then
          let q := he.1.send_response m ("Error processing request: " ++ err)
            MessageType.error_report freshId freshConv now
          (q.1, [q.2])
        else (he.1, ([] : List Message))
      (sr.1, sr.2, he.2.1, he.2.2)

/-- `_handle_message`: run the receive prologue, remember the
pre-dispatch state, transition to processing, run the outcome-dependent
body (on success send a response when one was requested and a truthy
non-empty response content was produced, and count the task completed;
on failure count the task failed, run `_handle_error`, and when a
response was requested send a correlated error-report response carrying
the failure description); finally return to idle if the pre-dispatch
state was processing, otherwise restore the pre-dispatch state.  Nothing
is ever re-raised past this boundary. -/
def BaseAgent.handle_message (a : BaseAgent) (m : Message) (outcome : HandlerOutcome)
    (freshId freshConv : String) (now : Int) : DispatchResult :=
  let a3 := a.receivePrologue m now
  let previous_state := a3.state
  let stepP := a3.change_state AgentState.processing
  let body := stepP.1.dispatchBody m outcome freshId freshConv now
  let target :=
    if previous_state = AgentState.processing then AgentState.idle else previous_state
  let stepT := body.1.change_state target
  { agent := stepT.1, sent := body.2.1, backoff := body.2.2.1,
    events := stepP.2 ++ body.2.2.2 ++ stepT.2 }

/-- The agent after `k` consecutive dispatches whose handler failed. -/
def BaseAgent.afterFailures (a : BaseAgent) (m : Message) (err : String)
    (freshId freshConv : String) (now : Int) : Nat → BaseAgent
  | 0 => a
  | k + 1 =>
      ((BaseAgent.afterFailures a m err freshId freshConv now k).handle_message m
        (HandlerOutcome.failure err) freshId freshConv now).agent

/-- The dispatch result of failure number `k + 1` (0-indexed step `k`). -/
def BaseAgent.failureStep (a : BaseAgent) (m : Message) (err : String)
    (freshId freshConv : String) (now : Int) (k : Nat) : DispatchResult :=
  (a.afterFailures m err freshId freshConv now k).handle_message m
    (HandlerOutcome.failure err) freshId freshConv now

/-! ## In-memory store (memory.py)

`time.time()` comparisons use the opaque `Int` time model; entry content
is kept as a string payload (the store never inspects it in the modelled
operations). -/

/-- The MemoryType enum of memory.py. -/
inductive MemoryType : Type
  | conversation
  | task
  | learning
  | context
  | fact
  | pattern
  | error
  deriving DecidableEq, Repr

/-- The MemoryPriority enum of memory.py. -/
inductive MemoryPriority : Type
  | critical
  | high
  | medium
  | low
  | temporary
  deriving DecidableEq, Repr

/-- The MemoryEntry dataclass. -/
structure MemoryEntry : Type where
  id : String
  content : String
  memory_type : MemoryType
  priority : MemoryPriority
  created_at : Int
  last_accessed : Int
  access_count : Nat
  tags : List String
  metadata : Metadata
  expires_at : Option Int
  deriving DecidableEq, Repr

/-- `is_expired`: never expired without an expiry time, otherwise expired
exactly when the current time is strictly past it. -/
def MemoryEntry.is_expired (e : MemoryEntry) (now : Int) : Bool :=
  match e.expires_at with
  | none => false
  | some t => decide (now > t)

/-- `access()`: bump the access count and refresh the last-accessed time. -/
def MemoryEntry.access (e : MemoryEntry) (now : Int) : MemoryEntry :=
  { e with access_count := e.access_count + 1, last_accessed := now }

/-- The InMemoryStore state: the main id-keyed map plus the type and tag
indexes (`__init__` pre-populates the type index with every type). -/
structure InMemoryStore : Type where
  memories : List (String × MemoryEntry)
  type_index : List (MemoryType × List String)
  tag_index : List (String × List String)
  deriving DecidableEq, Repr

/-- A freshly constructed store. -/
def InMemoryStore.new : InMemoryStore :=
  { memories := []
    type_index := [(MemoryType.conversation, []), (MemoryType.task, []),
      (MemoryType.learning, []), (MemoryType.context, []), (MemoryType.fact, []),
      (MemoryType.pattern, []), (MemoryType.error, [])]
    tag_index := [] }

/-- The per-tag step of `delete`: when the tag has an index entry that
contains the id, remove the first occurrence of the id, then drop the
tag's entry entirely when its list became empty. -/
def removeTagEntry (idx : List (String × List String)) (memory_id tag : String) :
    List (String × List String) :=
  match alookup tag idx with
  | none => idx
  | some ids =>
      if memory_id ∈ ids then
        let ids' := eraseFirst memory_id ids
        if ids' = [] then aremove tag idx else aupdate tag ids' idx
      else idx

/-- Fold the per-tag deletion step over an entry's tags in order. -/
def removeTags (memory_id : String) : List String → List (String × List String) →
    List (String × List String)
  | [], idx => idx
  | t :: ts, idx => removeTags memory_id ts (removeTagEntry idx memory_id t)

/-- `delete(memory_id)`: False when the id is unknown; otherwise remove
the entry from the main map, remove the id (first occurrence) from its
type's index list, remove it from each of its tags' index lists (dropping
emptied tag entries), and return True.  The type index holds every type
from construction; an absent type key (impossible for a store built by
this module) is modelled as leaving the index unchanged. -/
def InMemoryStore.delete (s : InMemoryStore) (memory_id : String) :
    InMemoryStore × Bool :=
  match alookup memory_id s.memories with
  | none => (s, false)
  | some entry =>
      let mems := aremove memory_id s.memories
      let tIdx :=
        match alookup entry.memory_type s.type_index with
        | some ids =>
            if memory_id ∈ ids then
              aupdate entry.memory_type (eraseFirst memory_id ids) s.type_index
            else s.type_index
        | none => s.type_index
      let gIdx := removeTags memory_id entry.tags s.tag_index
      ({ memories := mems, type_index := tIdx, tag_index := gIdx }, true)

/-- `retrieve(memory_id)`: a present, unexpired entry is returned after
`access()` ran on it (the stored copy is the same mutated object); a
present but expired entry is deleted and None returned; an unknown id
returns None. -/
def InMemoryStore.retrieve (s : InMemoryStore) (memory_id : String) (now : Int) :
    InMemoryStore × Option MemoryEntry :=
  match alookup memory_id s.memories with
  | some entry =>
      if entry.is_expired now = false then
        let e' := entry.access now
        ({ s with memories := aupdate memory_id e' s.memories }, some e')
      else
        ((s.delete memory_id).1, none)
  | none => (s, none)

/-! ## Concrete data used by counterexamples and witnesses -/

/-- A plain task-request message from pm to dev used by the priority
scenario; content and id carry the enqueue position. -/
def msgC1 (i : String) (p : MessagePriority) : Message :=
  { sender := AgentRole.product_manager, recipient := AgentRole.developer,
    message_type := MessageType.task_request, content := i, id := i, priority := p,
    timestamp := 0, metadata := [], requires_response := false,
    conversation_id := "c-" ++ i }

/-- A running hub with one subscribed developer handler after the four
messages of the spec's priority scenario were sent in the enqueue order
low, urgent, medium, urgent. -/
def hubC1sent : CommunicationHub :=
  let h0 := (CommunicationHub.new.start).subscribe AgentRole.developer 7
  let (h1, _) := h0.send_message (msgC1 "m1" MessagePriority.low) false "x1"
  let (h2, _) := h1.send_message (msgC1 "m2" MessagePriority.urgent) false "x2"
  let (h3, _) := h2.send_message (msgC1 "m3" MessagePriority.medium) false "x3"
  let (h4, _) := h3.send_message (msgC1 "m4" MessagePriority.urgent) false "x4"
  h4

/-- The contents of the messages delivered point-to-point, in delivery
order, extracted from a dispatch event trace. -/
def deliveredContents (evs : List DeliveryEvent) : List String :=
  evs.filterMap (fun e => match e with
    | DeliveryEvent.delivered _ m => some m.content
    | _ => none)

/-- An idle developer agent with a retry budget of 3 and no errors yet. -/
def agentC2 : BaseAgent :=
  { config := { name := "TestAgent", role := AgentRole.developer,
                max_memory_size := 1000, retry_count := 3 },
    agent_id := "agent-1",
    state := AgentState.idle,
    conversation_history := [],
    metrics := { messages_sent := 0, messages_received := 0, tasks_completed := 0,
                 tasks_failed := 0, last_activity := none },
    last_error := none,
    error_count := 0 }

/-- A message whose handling always fails in the error-budget scenario. -/
def msgC2 : Message :=
  { sender := AgentRole.product_manager, recipient := AgentRole.developer,
    message_type := MessageType.task_request, content := "boom", id := "e-1",
    priority := MessagePriority.medium, timestamp := 0, metadata := [],
    requires_response := false, conversation_id := "c-e" }

/-- An idle developer agent used to witness the failure-dispatch claim. -/
def agentC5 : BaseAgent :=
  { config := { name := "W", role := AgentRole.developer, max_memory_size := 5,
                retry_count := 3 },
    agent_id := "agent-5",
    state := AgentState.idle,
    conversation_history := [],
    metrics := { messages_sent := 0, messages_received := 0, tasks_completed := 0,
                 tasks_failed := 0, last_activity := none },
    last_error := none,
    error_count := 0 }

/-- A message requiring a response, used to witness the failure-dispatch
claim. -/
def msgC5 : Message :=
  { sender := AgentRole.product_manager, recipient := AgentRole.developer,
    message_type := MessageType.task_request, content := "do", id := "q-1",
    priority := MessagePriority.medium, timestamp := 0, metadata := [],
    requires_response := true, conversation_id := "c-q" }

/-- A hub with no subscriber for the tester role and one broadcast
observer. -/
def hubC7 : CommunicationHub :=
  (CommunicationHub.new.start).subscribe_to_all 9

/-- A message addressed to the unsubscribed tester role. -/
def msgC7 : Message :=
  { sender := AgentRole.developer, recipient := AgentRole.tester,
    message_type := MessageType.status_update, content := "hi", id := "d-1",
    priority := MessagePriority.medium, timestamp := 0, metadata := [],
    requires_response := false, conversation_id := "c-d" }

/-- The message held by the single-message thread of the limit-zero
counterexample. -/
def msgC8 : Message :=
  { sender := AgentRole.developer, recipient := AgentRole.tester,
    message_type := MessageType.status_update, content := "Message 0", id := "m-0",
    priority := MessagePriority.medium, timestamp := 0, metadata := [],
    requires_response := false, conversation_id := "conv-3" }

/-- A single-message thread on which the limit-zero slice misbehaves. -/
def threadC8 : ConversationThread :=
  { id := "conv-3", participants := [AgentRole.developer, AgentRole.tester],
    messages := [msgC8], created_at := 0, status := "active" }

/-- One of the 15 numbered messages of the spec's context-retrieval
example. -/
def msgC8w (i : Nat) : Message :=
  { sender := AgentRole.developer, recipient := AgentRole.tester,
    message_type := MessageType.status_update, content := "Message " ++ toString i,
    id := "msg-" ++ toString i, priority := MessagePriority.medium, timestamp := 0,
    metadata := [], requires_response := false, conversation_id := "conv-4" }

/-- The 15-message thread of the spec's context-retrieval example. -/
def threadC8w : ConversationThread :=
  { id := "conv-4", participants := [AgentRole.developer, AgentRole.tester],
    messages := (List.range 15).map msgC8w, created_at := 0, status := "active" }

/-- An entry that expired at time 5, stored under one tag. -/
def entryC10 : MemoryEntry :=
  { id := "k", content := "v", memory_type := MemoryType.task,
    priority := MemoryPriority.medium, created_at := 0, last_accessed := 0,
    access_count := 0, tags := ["t"], metadata := [], expires_at := some 5 }

/-- A store holding only the expired entry, fully indexed. -/
def storeC10 : InMemoryStore :=
  { memories := [("k", entryC10)]
    type_index := [(MemoryType.conversation, []), (MemoryType.task, ["k"]),
      (MemoryType.learning, []), (MemoryType.context, []), (MemoryType.fact, []),
      (MemoryType.pattern, []), (MemoryType.error, [])]
    tag_index := [("t", ["k"])] }

/-- An entry with no expiry time (never expires). -/
def entryC10b : MemoryEntry :=
  { id := "k", content := "v", memory_type := MemoryType.fact,
    priority := MemoryPriority.high, created_at := 0, last_accessed := 0,
    access_count := 2, tags := ["u"], metadata := [], expires_at := none }

/-- A store holding only the unexpired entry, fully indexed. -/
def storeC10b : InMemoryStore :=
  { memories := [("k", entryC10b)]
    type_index := [(MemoryType.conversation, []), (MemoryType.task, []),
      (MemoryType.learning, []), (MemoryType.context, []),
      (MemoryType.fact, ["k"]), (MemoryType.pattern, []), (MemoryType.error, [])]
    tag_index := [("u", ["k"])] }

/-! ## Supporting lemmas -/

theorem AgentRole.ofValue_value_role (r : AgentRole) : AgentRole.ofValue r.value = some r := by
  cases r <;> rfl

theorem MessageType.ofValue_value_kind (t : MessageType) :
    MessageType.ofValue t.value = some t := by
  cases t <;> rfl

theorem MessagePriority.ofValue_value_prio (p : MessagePriority) :
    MessagePriority.ofValue p.value = some p := by
  cases p <;> rfl

theorem ensureThread_queue (h : CommunicationHub) (cid : String) (m : Message) :
    (h.ensureThread cid m).message_queue = h.message_queue := by
  unfold CommunicationHub.ensureThread
  split <;> rfl

theorem ensureThread_history (h : CommunicationHub) (cid : String) (m : Message) :
    (h.ensureThread cid m).message_history = h.message_history := by
  unfold CommunicationHub.ensureThread
  split <;> rfl

theorem ensureThread_stats (h : CommunicationHub) (cid : String) (m : Message) :
    (h.ensureThread cid m).delivery_stats = h.delivery_stats := by
  unfold CommunicationHub.ensureThread
  split <;> rfl

theorem ensureThread_bsubs (h : CommunicationHub) (cid : String) (m : Message) :
    (h.ensureThread cid m).broadcast_subscribers = h.broadcast_subscribers := by
  unfold CommunicationHub.ensureThread
  split <;> rfl

theorem addToThread_queue (h : CommunicationHub) (cid : String) (m : Message) :
    (h.addToThread cid m).message_queue = h.message_queue := by
  unfold CommunicationHub.addToThread
  split <;> rfl

theorem addToThread_history (h : CommunicationHub) (cid : String) (m : Message) :
    (h.addToThread cid m).message_history = h.message_history := by
  unfold CommunicationHub.addToThread
  split <;> rfl

theorem addToThread_stats (h : CommunicationHub) (cid : String) (m : Message) :
    (h.addToThread cid m).delivery_stats = h.delivery_stats := by
  unfold CommunicationHub.addToThread
  split <;> rfl

theorem addToThread_bsubs (h : CommunicationHub) (cid : String) (m : Message) :
    (h.addToThread cid m).broadcast_subscribers = h.broadcast_subscribers := by
  unfold CommunicationHub.addToThread
  split <;> rfl

theorem track_queue (h : CommunicationHub) (m : Message) (fcv : String) :
    (h.track_conversation m fcv).message_queue = h.message_queue := by
  unfold CommunicationHub.track_conversation
  rw [addToThread_queue, ensureThread_queue]

theorem track_history (h : CommunicationHub) (m : Message) (fcv : String) :
    (h.track_conversation m fcv).message_history = h.message_history := by
  unfold CommunicationHub.track_conversation
  rw [addToThread_history, ensureThread_history]

theorem track_stats (h : CommunicationHub) (m : Message) (fcv : String) :
    (h.track_conversation m fcv).delivery_stats = h.delivery_stats := by
  unfold CommunicationHub.track_conversation
  rw [addToThread_stats, ensureThread_stats]

theorem track_bsubs (h : CommunicationHub) (m : Message) (fcv : String) :
    (h.track_conversation m fcv).broadcast_subscribers = h.broadcast_subscribers := by
  unfold CommunicationHub.track_conversation
  rw [addToThread_bsubs, ensureThread_bsubs]

theorem send_message_bsubs (h : CommunicationHub) (m : Message) (qf : Bool)
    (fcv : String) :
    (h.send_message m qf fcv).1.broadcast_subscribers = h.broadcast_subscribers := by
  unfold CommunicationHub.send_message
  split
  · rfl
  · exact track_bsubs _ _ _

/-! ## Claim theorems -/

/-- C1: BUG EXHIBIT.  The spec claims point-to-point delivery is ordered
by priority tier (four messages enqueued with priorities low, urgent,
medium, urgent dispatch as urgent, urgent, medium, low).  The hub's
delivery queue is a plain FIFO `asyncio.Queue`, not a priority queue, so
the four messages of the scenario are dispatched in their enqueue order
m1, m2, m3, m4 — not in the claimed priority order m2, m4, m3, m1. -/
theorem claim_C1_fifo_not_priority :
    deliveredContents (hubC1sent.drain (fun _ _ => true)).2 = ["m1", "m2", "m3", "m4"] ∧
    deliveredContents (hubC1sent.drain (fun _ _ => true)).2 ≠ ["m2", "m4", "m3", "m1"] :=
  ⟨by decide, by decide⟩

/-- C3: serialize-then-deserialize reproduces every field of any message
exactly (enum fields passing through their string/number values), and a
null metadata value in the input dictionary deserializes exactly like an
explicitly empty mapping. -/
theorem claim_C3_roundtrip :
    (∀ (m : Message) (fid fcv : String) (t : Int),
        Message.from_dict m.to_dict fid fcv t = some m) ∧
    (∀ (d : MessageDict) (fid fcv : String) (t : Int),
        Message.from_dict { d with metadata := none } fid fcv t =
          Message.from_dict { d with metadata := some [] } fid fcv t) := by
  constructor
  · intro m fid fcv t
    simp [Message.from_dict, Message.to_dict, AgentRole.ofValue_value_role,
      MessageType.ofValue_value_kind, MessagePriority.ofValue_value_prio, mkMessage, normalizeMeta]
  · intro d fid fcv t
    rfl

/-- C4: however a message comes into being, metadata is never absent: a
construction that omits the metadata argument gets the empty mapping from
the dataclass default, and `from_dict` on an input whose metadata is null
or missing produces a message whose metadata is the empty mapping. -/
theorem claim_C4_metadata_never_absent :
    (∀ (sender recipient : AgentRole) (mt : MessageType) (content : String)
        (idOpt : Option String) (prioOpt : Option MessagePriority) (tsOpt : Option Int)
        (reqOpt : Option Bool) (convOpt : Option String) (fid fcv : String) (now : Int),
        (mkMessageOpt sender recipient mt content idOpt prioOpt tsOpt none reqOpt convOpt
          fid fcv now).metadata = []) ∧
    (∀ (d : MessageDict) (fid fcv : String) (t : Int),
        (Message.from_dict { d with metadata := none } fid fcv t).elim True
          (fun m' => m'.metadata = [])) := by
  constructor
  · intro sender recipient mt content idOpt prioOpt tsOpt reqOpt convOpt fid fcv now
    rfl
  · intro d fid fcv t
    simp only [Message.from_dict]
    split
    · simp [mkMessage, normalizeMeta]
    · trivial

/-- C6: send_message reports its outcome only as a boolean: when the
queue put raises it increments the failed counter and returns false and
changes nothing else; otherwise it enqueues the message at the back of
the FIFO queue, appends it to history, counts it as sent, and returns
true. -/
theorem claim_C6_send_message_boolean :
    ∀ (h : CommunicationHub) (m : Message) (fcv : String),
      h.send_message m true fcv =
        ({ h with delivery_stats := { h.delivery_stats with
             total_failed := h.delivery_stats.total_failed + 1 } }, false) ∧
      (h.send_message m false fcv).2 = true ∧
      (h.send_message m false fcv).1.message_queue =
        h.message_queue ++ [(m.priority.value, m)] ∧
      (h.send_message m false fcv).1.message_history = h.message_history ++ [m] ∧
      (h.send_message m false fcv).1.delivery_stats.total_sent =
        h.delivery_stats.total_sent + 1 ∧
      (h.send_message m false fcv).1.delivery_stats.total_failed =
        h.delivery_stats.total_failed := by
  intro h m fcv
  refine ⟨rfl, rfl, ?_, ?_, ?_, ?_⟩
  · simp [CommunicationHub.send_message, track_queue]
  · simp [CommunicationHub.send_message, track_history]
  · simp [CommunicationHub.send_message, track_stats]
  · simp [CommunicationHub.send_message, track_stats]

/-- C7: a message whose recipient role has no registered handler is
dropped from point-to-point delivery — its dispatch iteration invokes no
handler, changes nothing in the hub (in particular no delivered/failed
count change), and produces only the broadcast-observer events — yet the
message is still appended to the global history when sent. -/
theorem claim_C7_unregistered_recipient (h : CommunicationHub) (m : Message)
    (fcv : String) (ok : Nat → Message → Bool) (p : Nat)
    (hnone : alookup m.recipient h.subscribers = none) :
    (h.send_message m false fcv).1.message_history = h.message_history ++ [m] ∧
    (h.processItem ok (p, m)).1 = h ∧
    (h.processItem ok (p, m)).2 =
      h.broadcast_subscribers.map (fun cb => DeliveryEvent.observed cb m) := by
  refine ⟨?_, ?_, ?_⟩
  · simp [CommunicationHub.send_message, track_history]
  · simp [CommunicationHub.processItem, hnone]
  · simp [CommunicationHub.processItem, hnone]

/-- Witness for C7: in a hub with one observer and no tester handler, a
message to the tester role reaches history and the observer but changes
nothing else. -/
theorem claim_C7_witness :
    alookup msgC7.recipient hubC7.subscribers = none ∧
    ((hubC7.send_message msgC7 false "cv").1.message_history =
        hubC7.message_history ++ [msgC7] ∧
      (hubC7.processItem (fun _ _ => true) (2, msgC7)).1 = hubC7 ∧
      (hubC7.processItem (fun _ _ => true) (2, msgC7)).2 =
        hubC7.broadcast_subscribers.map
          (fun cb => DeliveryEvent.observed cb msgC7)) :=
  ⟨by decide,
    claim_C7_unregistered_recipient hubC7 msgC7 "cv" (fun _ _ => true) 2 (by decide)⟩

/-- C8 COUNTEREXAMPLE: `get_context(limit)` does not return the last
`min(N, limit)` messages for every limit value: on a 1-message thread,
`get_context(0)` is the Python slice `messages[-0:]`, which is the whole
thread (length 1), not the empty last-0 suffix (length `min(1, 0) = 0`). -/
theorem claim_C8_counterexample :
    (threadC8.get_context 0).length ≠ min threadC8.messages.length 0 ∧
    threadC8.get_context 0 = [msgC8] :=
  ⟨by decide, by decide⟩

/-- C8 as amended: for every limit of at least 1, `get_context(limit)`
returns exactly the last `min(N, limit)` messages of the thread in
arrival order (the claim fails only at limit values below 1, where the
Python negative-start slice degenerates). -/
theorem claim_C8_amended (c : ConversationThread) (limit : Int) (hl : 1 ≤ limit) :
    c.get_context limit = c.messages.drop (c.messages.length - limit.toNat) ∧
    (c.get_context limit).length = min c.messages.length limit.toNat := by
  unfold ConversationThread.get_context pySliceFrom
  have h0 : -limit < 0 := by omega
  rw [if_pos h0]
  constructor
  · congr 1
    omega
  · rw [List.length_drop]
    omega

/-- Witness for C8 as amended: with 15 messages added, `get_context(10)`
is exactly messages 6 through 15 (the drop of the first 5), of length 10. -/
theorem claim_C8_amended_witness :
    threadC8w.get_context 10 =
      threadC8w.messages.drop (threadC8w.messages.length - (10 : Int).toNat) ∧
    (threadC8w.get_context 10).length = min threadC8w.messages.length (10 : Int).toNat :=
  claim_C8_amended threadC8w 10 (by decide)

theorem processItem_bsubs (h : CommunicationHub) (ok : Nat → Message → Bool)
    (item : Nat × Message) :
    (h.processItem ok item).1.broadcast_subscribers = h.broadcast_subscribers := by
  unfold CommunicationHub.processItem
  rcases halo : alookup item.2.recipient h.subscribers with _ | cb
  · simp [halo]
  · by_cases hok : ok cb item.2 <;> simp [halo, hok]

theorem drainList_bsubs (ok : Nat → Message → Bool) (items : List (Nat × Message)) :
    ∀ (h : CommunicationHub),
      (CommunicationHub.drainList ok h items).1.broadcast_subscribers =
        h.broadcast_subscribers := by
  induction items with
  | nil => intro h; rfl
  | cons item rest ih =>
      intro h
      have h2 := ih (h.processItem ok item).1
      have h1 := processItem_bsubs h ok item
      simp only [CommunicationHub.drainList]
      rw [h2, h1]

theorem drain_bsubs (h : CommunicationHub) (ok : Nat → Message → Bool) :
    (h.drain ok).1.broadcast_subscribers = h.broadcast_subscribers := by
  unfold CommunicationHub.drain
  exact drainList_bsubs ok h.message_queue _

theorem broadcastSendAll_bsubs (sender : AgentRole) (content : String) (mt : MessageType)
    (fi fc tf : Nat → String) (fl : Nat → Bool) (now : Int) (roles : List AgentRole) :
    ∀ (i : Nat) (h : CommunicationHub),
      (broadcastSendAll sender content mt fi fc tf fl now roles i
        h).broadcast_subscribers = h.broadcast_subscribers := by
  induction roles with
  | nil => intro i h; rfl
  | cons r rest ih =>
      intro i h
      simp only [broadcastSendAll]
      by_cases hr : r = sender
      · simp [hr, ih]
      · simp only [if_neg hr]
        rw [ih, send_message_bsubs]

theorem negotiationNotifyAll_bsubs (negId topic : String) (ps : List AgentRole)
    (fi fc tf : Nat → String) (fl : Nat → Bool) (now : Int) (roles : List AgentRole) :
    ∀ (i : Nat) (h : CommunicationHub),
      (negotiationNotifyAll negId topic ps fi fc tf fl now roles i
        h).broadcast_subscribers = h.broadcast_subscribers := by
  induction roles with
  | nil => intro i h; rfl
  | cons r rest ih =>
      intro i h
      simp only [negotiationNotifyAll]
      rw [ih, send_message_bsubs]

theorem send_request_bsubs (h : CommunicationHub) (sender recipient : AgentRole)
    (content : String) (mt : MessageType) (obsId : Nat) (fid fcv tf : String)
    (now : Int) (qf : Bool) (outcome : RequestOutcome) :
    (h.send_request sender recipient content mt obsId fid fcv tf now qf
      outcome).1.broadcast_subscribers = h.broadcast_subscribers ++ [obsId] := by
  unfold CommunicationHub.send_request
  rcases outcome with r | _ | _ <;>
    simp [send_message_bsubs, CommunicationHub.subscribe_to_all]

/-- C9: on every exit path of `send_request` (response received, timeout,
or caught internal error, with or without a queue fault during the send)
the temporarily installed observer is left behind: the broadcast-observer
list is exactly the old list with the observer appended, hence exactly
one element longer; and no modelled hub operation ever shrinks the
broadcast-observer list. -/
theorem claim_C9_observer_leak :
    (∀ (h : CommunicationHub) (sender recipient : AgentRole) (content : String)
        (mt : MessageType) (obsId : Nat) (fid fcv tf : String) (now : Int)
        (qf : Bool) (outcome : RequestOutcome),
        (h.send_request sender recipient content mt obsId fid fcv tf now qf
          outcome).1.broadcast_subscribers = h.broadcast_subscribers ++ [obsId] ∧
        (h.send_request sender recipient content mt obsId fid fcv tf now qf
          outcome).1.broadcast_subscribers.length =
            h.broadcast_subscribers.length + 1) ∧
    (∀ (h : CommunicationHub) (r : AgentRole) (cb : Nat),
        h.broadcast_subscribers.length ≤
          (h.subscribe r cb).broadcast_subscribers.length) ∧
    (∀ (h : CommunicationHub) (cb : Nat),
        h.broadcast_subscribers.length ≤
          (h.subscribe_to_all cb).broadcast_subscribers.length) ∧
    (∀ (h : CommunicationHub),
        h.broadcast_subscribers.length ≤ h.start.broadcast_subscribers.length ∧
        h.broadcast_subscribers.length ≤ h.stop.broadcast_subscribers.length) ∧
    (∀ (h : CommunicationHub) (m : Message) (qf : Bool) (fcv : String),
        h.broadcast_subscribers.length ≤
          (h.send_message m qf fcv).1.broadcast_subscribers.length) ∧
    (∀ (h : CommunicationHub) (ok : Nat → Message → Bool),
        h.broadcast_subscribers.length ≤ (h.drain ok).1.broadcast_subscribers.length) ∧
    (∀ (h : CommunicationHub) (sender : AgentRole) (content : String) (mt : MessageType)
        (fi fc tf : Nat → String) (fl : Nat → Bool) (now : Int),
        h.broadcast_subscribers.length ≤
          (h.broadcast_message sender content mt fi fc tf fl
            now).broadcast_subscribers.length) ∧
    (∀ (h : CommunicationHub) (ps : List AgentRole) (topic : String)
        (idata : Option Metadata) (fn : String) (fi fc tf : Nat → String)
        (fl : Nat → Bool) (now : Int),
        h.broadcast_subscribers.length ≤
          (h.start_negotiation ps topic idata fn fi fc tf fl
            now).1.broadcast_subscribers.length) := by
  refine ⟨?_, ?_, ?_, ?_, ?_, ?_, ?_, ?_⟩
  · intro h sender recipient content mt obsId fid fcv tf now qf outcome
    rw [send_request_bsubs]
    simp
  · intro h r cb
    exact Nat.le_refl _
  · intro h cb
    simp [CommunicationHub.subscribe_to_all]
  · intro h
    exact ⟨Nat.le_refl _, Nat.le_refl _⟩
  · intro h m qf fcv
    rw [send_message_bsubs]
  · intro h ok
    rw [drain_bsubs]
  · intro h sender content mt fi fc tf fl now
    unfold CommunicationHub.broadcast_message
    rw [broadcastSendAll_bsubs]
  · intro h ps topic idata fn fi fc tf fl now
    unfold CommunicationHub.start_negotiation
    rw [negotiationNotifyAll_bsubs]

theorem change_state_state (a : BaseAgent) (s : AgentState) :
    (a.change_state s).1.state = s := by
  simp only [BaseAgent.change_state]
  split <;> simp_all

theorem change_state_metrics (a : BaseAgent) (s : AgentState) :
    (a.change_state s).1.metrics = a.metrics := by
  simp only [BaseAgent.change_state]
  split <;> rfl

theorem change_state_last_error (a : BaseAgent) (s : AgentState) :
    (a.change_state s).1.last_error = a.last_error := by
  simp only [BaseAgent.change_state]
  split <;> rfl

theorem change_state_error_count (a : BaseAgent) (s : AgentState) :
    (a.change_state s).1.error_count = a.error_count := by
  simp only [BaseAgent.change_state]
  split <;> rfl

theorem change_state_config (a : BaseAgent) (s : AgentState) :
    (a.change_state s).1.config = a.config := by
  simp only [BaseAgent.change_state]
  split <;> rfl

theorem change_state_agent_id (a : BaseAgent) (s : AgentState) :
    (a.change_state s).1.agent_id = a.agent_id := by
  simp only [BaseAgent.change_state]
  split <;> rfl

theorem change_state_of_ne (a : BaseAgent) (s : AgentState) (h : a.state ≠ s) :
    a.change_state s = ({ a with state := s }, [(a.state, s)]) := by
  simp only [BaseAgent.change_state]
  rw [if_neg h]

theorem change_state_of_eq (a : BaseAgent) (s : AgentState) (h : a.state = s) :
    a.change_state s = (a, []) := by
  simp only [BaseAgent.change_state]
  rw [if_pos h]

theorem receivePrologue_state (a : BaseAgent) (m : Message) (now : Int) :
    (a.receivePrologue m now).state = a.state := by
  simp only [BaseAgent.receivePrologue]
  split <;> rfl

theorem receivePrologue_tasks_failed (a : BaseAgent) (m : Message) (now : Int) :
    (a.receivePrologue m now).metrics.tasks_failed = a.metrics.tasks_failed := by
  simp only [BaseAgent.receivePrologue]
  split <;> rfl

theorem receivePrologue_last_error (a : BaseAgent) (m : Message) (now : Int) :
    (a.receivePrologue m now).last_error = a.last_error := by
  simp only [BaseAgent.receivePrologue]
  split <;> rfl

theorem receivePrologue_error_count (a : BaseAgent) (m : Message) (now : Int) :
    (a.receivePrologue m now).error_count = a.error_count := by
  simp only [BaseAgent.receivePrologue]
  split <;> rfl

theorem receivePrologue_config (a : BaseAgent) (m : Message) (now : Int) :
    (a.receivePrologue m now).config = a.config := by
  simp only [BaseAgent.receivePrologue]
  split <;> rfl

theorem receivePrologue_agent_id (a : BaseAgent) (m : Message) (now : Int) :
    (a.receivePrologue m now).agent_id = a.agent_id := by
  simp only [BaseAgent.receivePrologue]
  split <;> rfl

theorem handle_error_last_error (a : BaseAgent) (err : String) :
    (a.handle_error err).1.last_error = some err := by
  simp only [BaseAgent.handle_error, BaseAgent.change_state]
  split_ifs <;> rfl

theorem handle_error_error_count (a : BaseAgent) (err : String) :
    (a.handle_error err).1.error_count = a.error_count + 1 := by
  simp only [BaseAgent.handle_error, BaseAgent.change_state]
  split_ifs <;> rfl

theorem handle_error_metrics (a : BaseAgent) (err : String) :
    (a.handle_error err).1.metrics = a.metrics := by
  simp only [BaseAgent.handle_error, BaseAgent.change_state]
  split_ifs <;> rfl

theorem handle_error_config (a : BaseAgent) (err : String) :
    (a.handle_error err).1.config = a.config := by
  simp only [BaseAgent.handle_error, BaseAgent.change_state]
  split_ifs <;> rfl

theorem handle_error_agent_id (a : BaseAgent) (err : String) :
    (a.handle_error err).1.agent_id = a.agent_id := by
  simp only [BaseAgent.handle_error, BaseAgent.change_state]
  split_ifs <;> rfl

theorem send_response_fst (a : BaseAgent) (o : Message) (c : String) (mt : MessageType)
    (fid fcv : String) (now : Int) :
    (a.send_response o c mt fid fcv now).1 =
      { a with metrics :=
          { a.metrics with messages_sent := a.metrics.messages_sent + 1 } } := rfl

theorem send_response_snd (a : BaseAgent) (o : Message) (c : String) (mt : MessageType)
    (fid fcv : String) (now : Int) :
    (a.send_response o c mt fid fcv now).2 =
      mkMessageOpt a.config.role o.sender mt c (some fid) none none
        (some [("response_to", MetaVal.str o.id), ("agent_id", MetaVal.str a.agent_id),
               ("processing_time", MetaVal.num now)]) none none fid fcv now := rfl

/-- C5: when the handler for an inbound message raises, the failure is
absorbed at the dispatch boundary: the failed-task counter is incremented
by one, the error is recorded, and exactly when the message required a
response, exactly one error-report response is sent, carrying the failure
description as content and echoing the original message id under the
`response_to` metadata key (the `mkMessageOpt` literal spells out that
response, built by `_send_response` with a fresh id). -/
theorem claim_C5_failure_isolated (a : BaseAgent) (m : Message) (err fid fcv : String) (now : Int) :
    ((a.handle_message m (HandlerOutcome.failure err) fid fcv now).agent.metrics.tasks_failed
        = a.metrics.tasks_failed + 1) ∧
    ((a.handle_message m (HandlerOutcome.failure err) fid fcv now).agent.last_error
        = some err) ∧
    ((a.handle_message m (HandlerOutcome.failure err) fid fcv now).agent.error_count
        = a.error_count + 1) ∧
    (m.requires_response = false →
      (a.handle_message m (HandlerOutcome.failure err) fid fcv now).sent = []) ∧
    (m.requires_response = true →
      (a.handle_message m (HandlerOutcome.failure err) fid fcv now).sent =
        [mkMessageOpt a.config.role m.sender MessageType.error_report
          ("Error processing request: " ++ err) (some fid) none none
          (some [("response_to", MetaVal.str m.id), ("agent_id", MetaVal.str a.agent_id),
                 ("processing_time", MetaVal.num now)]) none none fid fcv now]) := by
  simp only [BaseAgent.handle_message, BaseAgent.dispatchBody]
  by_cases hr : m.requires_response <;>
    simp [hr, change_state_metrics, change_state_last_error, change_state_error_count,
      change_state_config, change_state_agent_id, handle_error_last_error,
      handle_error_error_count, handle_error_metrics, handle_error_config,
      handle_error_agent_id, send_response_fst, send_response_snd,
      receivePrologue_state, receivePrologue_tasks_failed, receivePrologue_last_error,
      receivePrologue_error_count, receivePrologue_config, receivePrologue_agent_id]

theorem handle_error_of_processing (a : BaseAgent) (err : String)
    (h : a.state = AgentState.processing) :
    a.handle_error err =
      if a.error_count + 1 ≤ a.config.retry_count then
        ({ a with
             state := AgentState.idle
             last_error := some err
             error_count := a.error_count + 1 },
          some (a.error_count + 1),
          [(AgentState.processing, AgentState.error),
           (AgentState.error, AgentState.idle)])
      else
        ({ a with
             state := AgentState.error
             last_error := some err
             error_count := a.error_count + 1 },
          none, [(AgentState.processing, AgentState.error)]) := by
  simp only [BaseAgent.handle_error, BaseAgent.change_state]
  simp [h]

theorem failure_step_idle (a : BaseAgent) (m : Message) (err fid fcv : String) (now : Int)
    (h : a.state = AgentState.idle) :
    ((a.handle_message m (HandlerOutcome.failure err) fid fcv now).agent.state
        = AgentState.idle) ∧
    ((a.handle_message m (HandlerOutcome.failure err) fid fcv now).agent.error_count
        = a.error_count + 1) ∧
    ((a.handle_message m (HandlerOutcome.failure err) fid fcv now).agent.config
        = a.config) ∧
    ((a.handle_message m (HandlerOutcome.failure err) fid fcv now).backoff =
      if a.error_count + 1 ≤ a.config.retry_count then some (a.error_count + 1)
      else none) ∧
    ((a.handle_message m (HandlerOutcome.failure err) fid fcv now).events =
      [(AgentState.idle, AgentState.processing),
       (AgentState.processing, AgentState.error),
       (AgentState.error, AgentState.idle)]) := by
  simp only [BaseAgent.handle_message, BaseAgent.dispatchBody]
  have hps : (a.receivePrologue m now).state = AgentState.idle := by
    rw [receivePrologue_state, h]
  have hchg : (a.receivePrologue m now).change_state AgentState.processing =
      ({ a.receivePrologue m now with state := AgentState.processing },
        [(AgentState.idle, AgentState.processing)]) := by
    rw [change_state_of_ne]
    · rw [hps]
    · rw [hps]
      simp
  rw [hchg]
  by_cases hr : m.requires_response <;>
    simp [hr, handle_error_of_processing, receivePrologue_error_count,
      receivePrologue_config, send_response_fst, change_state_of_eq, change_state_of_ne,
      change_state_state, change_state_error_count, change_state_config] <;>
    split_ifs <;>
    simp_all [change_state_of_eq, change_state_of_ne]

theorem afterFailures_invariant (a : BaseAgent) (m : Message) (err fid fcv : String)
    (now : Int) (h : a.state = AgentState.idle) (k : Nat) :
    (a.afterFailures m err fid fcv now k).state = AgentState.idle ∧
    (a.afterFailures m err fid fcv now k).error_count = a.error_count + k ∧
    (a.afterFailures m err fid fcv now k).config = a.config := by
  induction k with
  | zero => simp [BaseAgent.afterFailures, h]
  | succ k ih =>
      obtain ⟨h1, h2, h3⟩ := ih
      have step := failure_step_idle (a.afterFailures m err fid fcv now k) m err fid fcv
        now h1
      simp only [BaseAgent.afterFailures]
      refine ⟨step.1, ?_, ?_⟩
      · rw [step.2.1, h2]
        omega
      · rw [step.2.2.1, h3]

/-- C2 as amended: with a retry budget of N, an idle agent whose handler
fails on every message passes, on each of the first N failures, through
idle, processing, error and back to idle with a backoff sleep of
`1.0 * k` seconds at the k-th failure (hence strictly increasing), and on
failure N+1 `_handle_error` performs no backoff recovery — but the
dispatch epilogue of `_handle_message` still restores the pre-dispatch
state, so the agent ends that dispatch idle rather than remaining parked
in the error state. -/
theorem claim_C2_amended (a : BaseAgent) (m : Message) (err fid fcv : String)
    (now : Int) (N : Nat) (hstate : a.state = AgentState.idle)
    (herr : a.error_count = 0) (hbudget : a.config.retry_count = N) :
    (∀ k, 1 ≤ k → k ≤ N →
        (a.failureStep m err fid fcv now (k - 1)).backoff = some k ∧
        (a.failureStep m err fid fcv now (k - 1)).agent.state = AgentState.idle ∧
        (a.failureStep m err fid fcv now (k - 1)).events =
          [(AgentState.idle, AgentState.processing),
           (AgentState.processing, AgentState.error),
           (AgentState.error, AgentState.idle)]) ∧
    ((a.failureStep m err fid fcv now N).backoff = none ∧
      (a.failureStep m err fid fcv now N).agent.state = AgentState.idle ∧
      (a.failureStep m err fid fcv now N).events =
        [(AgentState.idle, AgentState.processing),
         (AgentState.processing, AgentState.error),
         (AgentState.error, AgentState.idle)]) := by
  constructor
  · intro k hk1 hkN
    obtain ⟨h1, h2, h3⟩ := afterFailures_invariant a m err fid fcv now hstate (k - 1)
    have step := failure_step_idle (a.afterFailures m err fid fcv now (k - 1)) m err fid
      fcv now h1
    simp only [BaseAgent.failureStep]
    refine ⟨?_, step.1, step.2.2.2.2⟩
    rw [step.2.2.2.1, h2, h3, herr, hbudget]
    have hcond : 0 + (k - 1) + 1 ≤ N := by omega
    rw [if_pos hcond]
    congr 1
    omega
  · obtain ⟨h1, h2, h3⟩ := afterFailures_invariant a m err fid fcv now hstate N
    have step := failure_step_idle (a.afterFailures m err fid fcv now N) m err fid fcv
      now h1
    simp only [BaseAgent.failureStep]
    refine ⟨?_, step.1, step.2.2.2.2⟩
    rw [step.2.2.2.1, h2, h3, herr, hbudget]
    have hcond : ¬ (0 + N + 1 ≤ N) := by omega
    rw [if_neg hcond]

/-- C2 COUNTEREXAMPLE: the claim that after the (N+1)-th failure the
agent "remains in the error state" is false: with a budget of 3, after
the 4th failure the agent's state is idle, not error, because the
`finally` block of `_handle_message` restores the pre-dispatch state
(idle) even when the budget is exhausted; the exhausted budget is still
visible in the absent backoff of the 4th failure. -/
theorem claim_C2_counterexample :
    (agentC2.afterFailures msgC2 "boom" "rid" "rcv" 0 4).state ≠ AgentState.error ∧
    (agentC2.afterFailures msgC2 "boom" "rid" "rcv" 0 4).state = AgentState.idle ∧
    (agentC2.afterFailures msgC2 "boom" "rid" "rcv" 0 4).error_count = 4 ∧
    (agentC2.failureStep msgC2 "boom" "rid" "rcv" 0 3).backoff = none :=
  ⟨by decide, by decide, by decide, by decide⟩

/-- Witness for C5: a failing handler on a response-requiring message for
a concrete idle agent yields exactly one correlated error report and a
failed count of one. -/
theorem claim_C5_witness :
    msgC5.requires_response = true ∧
    (agentC5.handle_message msgC5 (HandlerOutcome.failure "E") "rid" "rcv" 7).sent =
      [mkMessageOpt agentC5.config.role msgC5.sender MessageType.error_report
        ("Error processing request: " ++ "E") (some "rid") none none
        (some [("response_to", MetaVal.str msgC5.id),
               ("agent_id", MetaVal.str agentC5.agent_id),
               ("processing_time", MetaVal.num 7)]) none none "rid" "rcv" 7] ∧
    (agentC5.handle_message msgC5 (HandlerOutcome.failure "E") "rid" "rcv"
      7).agent.metrics.tasks_failed = agentC5.metrics.tasks_failed + 1 :=
  ⟨rfl, (claim_C5_failure_isolated agentC5 msgC5 "E" "rid" "rcv" 7).2.2.2.2 rfl,
    (claim_C5_failure_isolated agentC5 msgC5 "E" "rid" "rcv" 7).1⟩

/-- Witness for C2 as amended: the concrete budget-3 agent gets a backoff
of 2 time units on its second failure and ends it idle. -/
theorem claim_C2_amended_witness :
    agentC2.state = AgentState.idle ∧ agentC2.error_count = 0 ∧
    agentC2.config.retry_count = 3 ∧
    (agentC2.failureStep msgC2 "boom" "rid" "rcv" 0 1).backoff = some 2 ∧
    (agentC2.failureStep msgC2 "boom" "rid" "rcv" 0 1).agent.state = AgentState.idle :=
  have h := claim_C2_amended agentC2 msgC2 "boom" "rid" "rcv" 0 3 rfl rfl rfl
  ⟨rfl, rfl, rfl, (h.1 2 (by decide) (by decide)).1, (h.1 2 (by decide) (by decide)).2.1⟩

theorem alookup_mem {α β : Type} [DecidableEq α] {k : α} {v : β} :
    ∀ {l : List (α × β)}, alookup k l = some v → (k, v) ∈ l := by
  intro l
  induction l with
  | nil => intro h; simp [alookup] at h
  | cons p t ih =>
      intro h
      rw [alookup] at h
      by_cases hp : p.1 = k
      · rw [if_pos hp] at h
        injection h with h2
        rw [← hp, ← h2]
        exact List.mem_cons_self _ _
      · rw [if_neg hp] at h
        exact List.mem_cons_of_mem _ (ih h)

theorem alookup_aremove_self {α β : Type} [DecidableEq α] (k : α) :
    ∀ (l : List (α × β)), alookup k (aremove k l) = none := by
  intro l
  induction l with
  | nil => rfl
  | cons p t ih =>
      by_cases hp : p.1 = k
      · simp [aremove, hp, ih]
      · simp [aremove, alookup, hp, ih]

theorem alookup_aremove_ne {α β : Type} [DecidableEq α] {k' k : α} (h : k' ≠ k) :
    ∀ (l : List (α × β)), alookup k' (aremove k l) = alookup k' l := by
  intro l
  induction l with
  | nil => rfl
  | cons p t ih =>
      by_cases hp : p.1 = k
      · simp [aremove, alookup, hp, Ne.symm h, ih]
      · simp [aremove, alookup, hp, ih]

theorem alookup_aupdate_self {α β : Type} [DecidableEq α] (k : α) (v : β) :
    ∀ (l : List (α × β)),
      alookup k (aupdate k v l) = (alookup k l).map (fun _ => v) := by
  intro l
  induction l with
  | nil => rfl
  | cons p t ih =>
      by_cases hp : p.1 = k
      · simp [aupdate, alookup, hp]
      · simp [aupdate, alookup, hp, ih]

theorem alookup_aupdate_ne {α β : Type} [DecidableEq α] {k' k : α} (v : β) (h : k' ≠ k) :
    ∀ (l : List (α × β)), alookup k' (aupdate k v l) = alookup k' l := by
  intro l
  induction l with
  | nil => rfl
  | cons p t ih =>
      by_cases hp : p.1 = k
      · simp [aupdate, alookup, hp, Ne.symm h, ih]
      · simp [aupdate, alookup, hp, ih]

theorem mem_eraseFirst {α : Type} [DecidableEq α] {y x : α} :
    ∀ {l : List α}, y ∈ eraseFirst x l → y ∈ l := by
  intro l
  induction l with
  | nil => intro h; simp [eraseFirst] at h
  | cons a t ih =>
      intro h
      rw [eraseFirst] at h
      by_cases ha : a = x
      · rw [if_pos ha] at h
        exact List.mem_cons_of_mem _ h
      · rw [if_neg ha] at h
        rcases List.mem_cons.mp h with h1 | h2
        · exact List.mem_cons.mpr (Or.inl h1)
        · exact List.mem_cons_of_mem _ (ih h2)

theorem not_mem_eraseFirst_self {α : Type} [DecidableEq α] {x : α} :
    ∀ {l : List α}, l.Nodup → x ∉ eraseFirst x l := by
  intro l
  induction l with
  | nil => intro _ h; simp [eraseFirst] at h
  | cons a t ih =>
      intro hn h
      rw [eraseFirst] at h
      rcases List.nodup_cons.mp hn with ⟨hna, hnt⟩
      by_cases ha : a = x
      · rw [if_pos ha] at h
        rw [ha] at hna
        exact hna h
      · rw [if_neg ha] at h
        rcases List.mem_cons.mp h with h1 | h2
        · exact ha h1.symm
        · exact ih hnt h2

theorem eraseFirst_nodup {α : Type} [DecidableEq α] {x : α} :
    ∀ {l : List α}, l.Nodup → (eraseFirst x l).Nodup := by
  intro l
  induction l with
  | nil => intro _; simp [eraseFirst]
  | cons a t ih =>
      intro hn
      rcases List.nodup_cons.mp hn with ⟨hna, hnt⟩
      rw [eraseFirst]
      by_cases ha : a = x
      · rw [if_pos ha]
        exact hnt
      · rw [if_neg ha]
        exact List.nodup_cons.mpr ⟨fun hmem => hna (mem_eraseFirst hmem), ih hnt⟩

theorem mem_aupdate {α β : Type} [DecidableEq α] {p : α × β} {k : α} {v : β} :
    ∀ {l : List (α × β)}, p ∈ aupdate k v l → (p.1 = k ∧ p.2 = v) ∨ p ∈ l := by
  intro l
  induction l with
  | nil => intro h; simp [aupdate] at h
  | cons q t ih =>
      intro h
      rw [aupdate] at h
      by_cases hq : q.1 = k
      · rw [if_pos hq] at h
        rcases List.mem_cons.mp h with h1 | h2
        · left
          rw [h1]
          exact ⟨hq, rfl⟩
        · rcases ih h2 with h3 | h4
          · exact Or.inl h3
          · exact Or.inr (List.mem_cons_of_mem _ h4)
      · rw [if_neg hq] at h
        rcases List.mem_cons.mp h with h1 | h2
        · exact Or.inr (List.mem_cons.mpr (Or.inl h1))
        · rcases ih h2 with h3 | h4
          · exact Or.inl h3
          · exact Or.inr (List.mem_cons_of_mem _ h4)

theorem mem_aremove {α β : Type} [DecidableEq α] {p : α × β} {k : α} :
    ∀ {l : List (α × β)}, p ∈ aremove k l → p ∈ l := by
  intro l
  induction l with
  | nil => intro h; simp [aremove] at h
  | cons q t ih =>
      intro h
      rw [aremove] at h
      by_cases hq : q.1 = k
      · rw [if_pos hq] at h
        exact List.mem_cons_of_mem _ (ih h)
      · rw [if_neg hq] at h
        rcases List.mem_cons.mp h with h1 | h2
        · exact List.mem_cons.mpr (Or.inl h1)
        · exact List.mem_cons_of_mem _ (ih h2)

theorem removeTagEntry_nodup (idx : List (String × List String))
    (memory_id tag : String) (hn : ∀ p ∈ idx, p.2.Nodup) :
    ∀ p ∈ removeTagEntry idx memory_id tag, p.2.Nodup := by
  intro p hp
  cases halo : alookup tag idx with
  | none =>
      simp only [removeTagEntry, halo] at hp
      exact hn p hp
  | some ids =>
      simp only [removeTagEntry, halo] at hp
      have hids : ids.Nodup := hn (tag, ids) (alookup_mem halo)
      by_cases hmem : memory_id ∈ ids
      · rw [if_pos hmem] at hp
        by_cases hemp : eraseFirst memory_id ids = []
        · rw [if_pos hemp] at hp
          exact hn p (mem_aremove hp)
        · rw [if_neg hemp] at hp
          rcases mem_aupdate hp with ⟨h1, h2⟩ | h3
          · rw [h2]
            exact eraseFirst_nodup hids
          · exact hn p h3
      · rw [if_neg hmem] at hp
        exact hn p hp

theorem removeTagEntry_self (idx : List (String × List String))
    (memory_id tag : String) (hn : ∀ p ∈ idx, p.2.Nodup) :
    ∀ ids', alookup tag (removeTagEntry idx memory_id tag) = some ids' →
      memory_id ∉ ids' := by
  intro ids' hlook
  cases halo : alookup tag idx with
  | none =>
      simp only [removeTagEntry, halo] at hlook
      exact Option.noConfusion hlook
  | some ids =>
      simp only [removeTagEntry, halo] at hlook
      have hids : ids.Nodup := hn (tag, ids) (alookup_mem halo)
      by_cases hmem : memory_id ∈ ids
      · rw [if_pos hmem] at hlook
        by_cases hemp : eraseFirst memory_id ids = []
        · rw [if_pos hemp, alookup_aremove_self] at hlook
          exact Option.noConfusion hlook
        · rw [if_neg hemp, alookup_aupdate_self, halo] at hlook
          simp only [Option.map] at hlook
          injection hlook with h2
          rw [← h2]
          exact not_mem_eraseFirst_self hids
      · rw [if_neg hmem] at hlook
        rw [halo] at hlook
        injection hlook with h2
        rw [← h2]
        exact hmem

theorem removeTagEntry_other (idx : List (String × List String))
    (memory_id tag t' : String) (hn : ∀ p ∈ idx, p.2.Nodup)
    (hprev : ∀ ids', alookup t' idx = some ids' → memory_id ∉ ids') :
    ∀ ids', alookup t' (removeTagEntry idx memory_id tag) = some ids' →
      memory_id ∉ ids' := by
  intro ids' hlook
  by_cases htt : t' = tag
  · subst htt
    exact removeTagEntry_self idx memory_id t' hn ids' hlook
  · cases halo : alookup tag idx with
    | none =>
        simp only [removeTagEntry, halo] at hlook
        exact hprev ids' hlook
    | some ids =>
        simp only [removeTagEntry, halo] at hlook
        by_cases hmem : memory_id ∈ ids
        · rw [if_pos hmem] at hlook
          by_cases hemp : eraseFirst memory_id ids = []
          · rw [if_pos hemp, alookup_aremove_ne htt] at hlook
            exact hprev ids' hlook
          · rw [if_neg hemp, alookup_aupdate_ne _ htt] at hlook
            exact hprev ids' hlook
        · rw [if_neg hmem] at hlook
          exact hprev ids' hlook

theorem removeTags_nodup (memory_id : String) (ts : List String) :
    ∀ idx, (∀ p ∈ idx, p.2.Nodup) →
      ∀ p ∈ removeTags memory_id ts idx, p.2.Nodup := by
  induction ts with
  | nil => intro idx hn; exact hn
  | cons t ts ih =>
      intro idx hn
      exact ih _ (removeTagEntry_nodup idx memory_id t hn)

theorem removeTags_other (memory_id : String) (ts : List String) :
    ∀ (idx : List (String × List String)) (t' : String), (∀ p ∈ idx, p.2.Nodup) →
      (∀ ids', alookup t' idx = some ids' → memory_id ∉ ids') →
      ∀ ids', alookup t' (removeTags memory_id ts idx) = some ids' →
        memory_id ∉ ids' := by
  induction ts with
  | nil => intro idx t' hn hprev; exact hprev
  | cons t ts ih =>
      intro idx t' hn hprev
      exact ih _ t' (removeTagEntry_nodup idx memory_id t hn)
        (removeTagEntry_other idx memory_id t t' hn hprev)

theorem removeTags_mem (memory_id : String) (ts : List String) :
    ∀ idx, (∀ p ∈ idx, p.2.Nodup) →
      ∀ t ∈ ts, ∀ ids', alookup t (removeTags memory_id ts idx) = some ids' →
        memory_id ∉ ids' := by
  induction ts with
  | nil =>
      intro idx hn t ht
      simp at ht
  | cons t0 ts ih =>
      intro idx hn t ht
      rcases List.mem_cons.mp ht with h1 | h2
      · subst h1
        simp only [removeTags]
        exact removeTags_other memory_id ts (removeTagEntry idx memory_id t) t
          (removeTagEntry_nodup idx memory_id t hn)
          (removeTagEntry_self idx memory_id t hn)
      · simp only [removeTags]
        exact ih (removeTagEntry idx memory_id t0)
          (removeTagEntry_nodup idx memory_id t0 hn) t h2

/-- C10: `retrieve` never returns an expired entry: a miss returns the
store unchanged with no result; a hit on an unexpired entry returns the
entry with its access count incremented and last-accessed time set to
now, updating the stored copy in place; a hit on an expired entry returns
no result and deletes the entry — it disappears from the main map, from
its type's index list and from each of its tags' index lists (the
well-formedness hypotheses say each index list holds an id at most once,
which every store built by `store` maintains). -/
theorem claim_C10_retrieve_expiry (s : InMemoryStore) (id : String) (now : Int)
    (hwfT : ∀ p ∈ s.type_index, p.2.Nodup) (hwfG : ∀ p ∈ s.tag_index, p.2.Nodup) :
    (∀ e', (s.retrieve id now).2 = some e' → e'.is_expired now = false) ∧
    (∀ e, alookup id s.memories = some e → e.is_expired now = false →
      (s.retrieve id now).2 = some (e.access now) ∧
      (s.retrieve id now).1.memories = aupdate id (e.access now) s.memories) ∧
    (∀ e, alookup id s.memories = some e → e.is_expired now = true →
      (s.retrieve id now).2 = none ∧
      alookup id (s.retrieve id now).1.memories = none ∧
      (∀ ids, alookup e.memory_type (s.retrieve id now).1.type_index = some ids →
        id ∉ ids) ∧
      (∀ t ∈ e.tags, ∀ ids, alookup t (s.retrieve id now).1.tag_index = some ids →
        id ∉ ids)) ∧
    (alookup id s.memories = none → s.retrieve id now = (s, none)) := by
  refine ⟨?_, ?_, ?_, ?_⟩
  · intro e' hret
    cases hmem : alookup id s.memories with
    | none =>
        simp [InMemoryStore.retrieve, hmem] at hret
    | some e =>
        by_cases hexp : e.is_expired now = false
        · simp [InMemoryStore.retrieve, hmem, hexp] at hret
          rw [← hret]
          simp [MemoryEntry.access, MemoryEntry.is_expired] at hexp ⊢
          exact hexp
        · simp [InMemoryStore.retrieve, hmem, hexp] at hret
  · intro e hmem hexp
    constructor
    · simp [InMemoryStore.retrieve, hmem, hexp]
    · simp [InMemoryStore.retrieve, hmem, hexp]
  · intro e hmem hexp
    refine ⟨?_, ?_, ?_, ?_⟩
    · simp [InMemoryStore.retrieve, hmem, hexp]
    · simp [InMemoryStore.retrieve, InMemoryStore.delete, hmem, hexp,
        alookup_aremove_self]
    · intro ids hlook
      simp only [InMemoryStore.retrieve, InMemoryStore.delete, hmem, hexp] at hlook
      rw [if_neg (by simp)] at hlook
      cases htl : alookup e.memory_type s.type_index with
      | none =>
          simp only [htl] at hlook
          exact Option.noConfusion hlook
      | some ids0 =>
          simp only [htl] at hlook
          have hids0 : ids0.Nodup := hwfT (e.memory_type, ids0) (alookup_mem htl)
          by_cases hm : id ∈ ids0
          · rw [if_pos hm, alookup_aupdate_self, htl] at hlook
            simp only [Option.map] at hlook
            injection hlook with h2
            rw [← h2]
            exact not_mem_eraseFirst_self hids0
          · rw [if_neg hm, htl] at hlook
            injection hlook with h2
            rw [← h2]
            exact hm
    · intro t ht ids hlook
      simp only [InMemoryStore.retrieve, InMemoryStore.delete, hmem, hexp] at hlook
      rw [if_neg (by simp)] at hlook
      exact removeTags_mem id e.tags s.tag_index hwfG t ht ids hlook
  · intro hmem
    simp [InMemoryStore.retrieve, hmem]

/-- Witness for C10: retrieving the entry that expired at time 5 at time
10 yields no result and removes it from the map and its type index list;
retrieving the never-expiring entry returns it with its access count
bumped from 2 to 3 and the stored copy updated. -/
theorem claim_C10_witness :
    entryC10.is_expired 10 = true ∧
    (storeC10.retrieve "k" 10).2 = none ∧
    alookup "k" (storeC10.retrieve "k" 10).1.memories = none ∧
    "k" ∉ ([] : List String) ∧
    (storeC10b.retrieve "k" 10).2 = some (entryC10b.access 10) ∧
    (storeC10b.retrieve "k" 10).1.memories =
      aupdate "k" (entryC10b.access 10) storeC10b.memories :=
  have h := (claim_C10_retrieve_expiry storeC10 "k" 10 (by decide) (by decide)).2.2.1
    entryC10 (by decide) (by decide)
  have h2 := (claim_C10_retrieve_expiry storeC10b "k" 10 (by decide) (by decide)).2.1
    entryC10b (by decide) (by decide)
  ⟨by decide, h.1, h.2.1, h.2.2.1 [] (by decide), h2.1, h2.2⟩
